import Mathlib

/-!
Verification of the data-quality check core of the `airflow-dq` repository.

The embedding follows the two source files
`plugins/base_data_quality_operator.py` (module-level `_get_hook` and
`get_sql_value`) and `operators/base_data_quality_operator.py`
(`BaseDataQualityOperator.__init__`, `push`, `send_failure_notification`,
`get_sql_value`).  Database access is abstracted as an oracle
`get_records : Hook → String → List (List ℚ)` standing for
`hook.get_records(sql)`; numeric query results are modelled as exact
rationals.  A raised Python exception is modelled as `Except.error` carrying
the exception class name and its message.
-/

/-- A raised Python exception: its class name (`ValueError`,
`AirflowException`, `KeyError`, ...) and its message. -/
structure PyError where
  kind : String
  msg : String
deriving DecidableEq, Repr

/-- Concatenation of a list of string segments; Python f-strings and
`str.format` results are modelled as `concatAll` of their segments. -/
def concatAll : List String → String
  | [] => ""
  | s :: rest => s ++ concatAll rest

/-- `occursIn t s` states that `t` occurs as a contiguous substring of `s`. -/
def occursIn (t s : String) : Prop :=
  ∃ a b : List Char, s.data = a ++ t.data ++ b

/-- The database handle returned by hook construction.  Variants mirror the
hook classes the two source files construct: `PostgresHook`, `MySqlHook`,
`HiveServer2Hook`, `BigQueryHook` (which alone receives the
`use_legacy_sql` flag), and the generic `BaseHook.get_hook` fallback of the
operators-file version. -/
inductive Hook where
  | postgres (conn_id : String)
  | mysql (conn_id : String)
  | hiveServer2 (conn_id : String)
  | bigquery (conn_id : String) (use_legacy_sql : Bool)
  | base (conn_id : String)
deriving DecidableEq, Repr

/-- `_get_hook` of `plugins/base_data_quality_operator.py` (lines 71-86):
dispatches on the connection's `conn_type` and raises `ValueError` naming
the offending type when it is unsupported.  The connection lookup
`BaseHook.get_connection(conn_id).conn_type` is abstracted by passing the
resulting `conn_type` directly. -/
def get_hook (conn_type conn_id : String) : Except PyError Hook :=
  if conn_type = "postgres" then .ok (.postgres conn_id)
  else if conn_type = "mysql" then .ok (.mysql conn_id)
  else if conn_type = "hive" then .ok (.hiveServer2 conn_id)
  else .error ⟨"ValueError",
    concatAll ["Connection type of \"", conn_type, "\" not currently supported"]⟩

/-- The `ValueError` raised for a result set with more than one row
(message from both source files, verbatim). -/
def ambiguousResultErr : PyError :=
  ⟨"ValueError", "Result from sql query contains more than 1 entry"⟩

/-- The `ValueError` raised for an empty result set. -/
def noResultErr : PyError :=
  ⟨"ValueError", "No result returned from sql query"⟩

/-- The `ValueError` raised when the single row does not have exactly one
column. -/
def wrongShapeErr : PyError :=
  ⟨"ValueError", "Result from sql query does not contain exactly 1 column"⟩

/-- `get_sql_value` of `plugins/base_data_quality_operator.py`
(lines 88-103): resolve the hook, run the query, and enforce the
one-row/one-column contract.  `result[0]` and `result[0][0]` are reached
only after the guards establish `result.length = 1` and the row length is
`1`, where `headD` coincides with indexing. -/
def get_sql_value (conn_type conn_id sql : String)
    (get_records : Hook → String → List (List ℚ)) : Except PyError ℚ :=
  match get_hook conn_type conn_id with
  | .error e => .error e
  | .ok hook =>
    let result := get_records hook sql
    if 1 < result.length then .error ambiguousResultErr
    else if result.length < 1 then .error noResultErr
    else
      let row := result.headD []
      if row.length ≠ 1 then .error wrongShapeErr
      else .ok (row.headD 0)

/-- The hook choice inside `get_sql_value` of
`operators/base_data_quality_operator.py` (lines 125-129):
`google_cloud_platform` yields a `BigQueryHook` carrying the operator's
`use_legacy_sql` flag; anything else falls through to
`BaseHook.get_hook(conn_id)`. -/
def operator_get_hook (conn_type conn_id : String) (use_legacy_sql : Bool) : Hook :=
  if conn_type = "google_cloud_platform" then .bigquery conn_id use_legacy_sql
  else .base conn_id

/-- `get_sql_value` method of `operators/base_data_quality_operator.py`
(lines 119-140): same cardinality policy as the plugins version, with the
hook chosen by `operator_get_hook`. -/
def operator_get_sql_value (conn_type conn_id sql : String) (use_legacy_sql : Bool)
    (get_records : Hook → String → List (List ℚ)) : Except PyError ℚ :=
  let hook := operator_get_hook conn_type conn_id use_legacy_sql
  let result := get_records hook sql
  if 1 < result.length then .error ambiguousResultErr
  else if result.length < 1 then .error noResultErr
  else
    let row := result.headD []
    if row.length ≠ 1 then .error wrongShapeErr
    else .ok (row.headD 0)

/-- Modelled from the spec: the Threshold Evaluator contract of §4.3
(`evaluate(measured, bounds) -> boolean`, pass iff
`bounds.min <= measured <= bounds.max`, inclusive on both ends).  The
concrete operators implementing it
(`data_quality_threshold_check_operator.py` and
`data_quality_threshold_sql_check_operator.py`) are not among the source
files; only their tests are. -/
def within_threshold (measured min_threshold max_threshold : ℚ) : Bool :=
  decide (min_threshold ≤ measured) && decide (measured ≤ max_threshold)

/-- A value stored in one field of the ordered `CheckResult` record. -/
inductive FieldValue where
  | str (s : String)
  | numeric (q : ℚ)
  | timeStr (t : String)
  | boolean (b : Bool)
deriving DecidableEq, Repr

/-- Modelled from the spec: the Result Record Builder of §4.4 assembling
the seven-field ordered `CheckResult` record (§3); the `execute` methods of
the concrete threshold check operators, which build this ordered dict, are
not among the source files — their tests assert `len(result) == 7` and
read `result["within_threshold"]`. -/
def build_check_result (identifier description execution_timestamp : String)
    (measured min_threshold max_threshold : ℚ) : List (String × FieldValue) :=
  [("identifier", .str identifier),
   ("description", .str description),
   ("execution_timestamp", .timeStr execution_timestamp),
   ("measured_value", .numeric measured),
   ("min_threshold", .numeric min_threshold),
   ("max_threshold", .numeric max_threshold),
   ("within_threshold", .boolean (within_threshold measured min_threshold max_threshold))]

/-- Rendering of one field value into the log line of `push`; Python
renders booleans as `True` / `False`. -/
def fvToString : FieldValue → String
  | .str s => s
  | .numeric q => toString q
  | .timeStr t => t
  | .boolean b => if b then "True" else "False"

/-- The observable effects of one `push` call: the log line and the
messages handed to the configured message writer. -/
structure PushEffect where
  log : String
  writer_messages : List (List (String × FieldValue))
deriving DecidableEq, Repr

/-- `push` of `operators/base_data_quality_operator.py` (lines 78-91):
always logs a `key: item` rendering of the ordered record, and forwards
the record to `self.message_writer.send_message` whenever a message writer
is configured.  `message_writer` is the truthiness of
`self.message_writer`. -/
def push (dag_id : String) (message_writer : Bool)
    (info : List (String × FieldValue)) : PushEffect :=
  let infoStr := String.intercalate "\n"
    (info.map fun kv => kv.1 ++ ": " ++ fvToString kv.2)
  { log := concatAll ["Log from ", dag_id, ":\n", infoStr],
    writer_messages := if message_writer then [info] else [] }

/-- The opening brace character, written by code point to keep format
templates readable as data. -/
def lbrace : Char := Char.ofNat 123

/-- The closing brace character. -/
def rbrace : Char := Char.ofNat 125

/-- First-match lookup in the keyword-argument mapping of
`str.format(**kwargs)`; Python dict keys are unique, so first match is the
match. -/
def lookupArg (key : String) : List (String × String) → Option String
  | [] => none
  | (k, v) :: rest => if k = key then some v else lookupArg key rest

/-- The `ValueError` Python raises for an unterminated replacement field. -/
def unmatchedLBraceErr : PyError :=
  ⟨"ValueError", "Single '\x7b' encountered in format string"⟩

/-- The `ValueError` Python raises for a lone closing brace. -/
def unmatchedRBraceErr : PyError :=
  ⟨"ValueError", "Single '\x7d' encountered in format string"⟩

/-- The `KeyError` Python raises when a replacement field names a key that
is absent from the keyword arguments. -/
def keyErr (key : String) : PyError := ⟨"KeyError", key⟩

/-- One pass of Python `str.format(**args)` over the template's characters,
restricted to the named-replacement-field subset the repository uses:
literal text is copied, `\x7b\x7b` and `\x7d\x7d` escape to a single brace,
`\x7bname\x7d` is replaced by `args[name]` (a `KeyError` if absent), and
unmatched braces are a `ValueError`.  `mode = some acc` means the scanner
is inside a replacement field with `acc` holding the name read so far, in
reverse. -/
def formatAux (args : List (String × String)) (mode : Option (List Char)) :
    List Char → Except PyError (List Char)
  | [] =>
    match mode with
    | none => .ok []
    | some _ => .error unmatchedLBraceErr
  | c :: rest =>
    match mode with
    | some acc =>
      if c = rbrace then
        match lookupArg (String.mk acc.reverse) args with
        | none => .error (keyErr (String.mk acc.reverse))
        | some v =>
          match formatAux args none rest with
          | .ok out => .ok (v.data ++ out)
          | .error e => .error e
      else formatAux args (some (c :: acc)) rest
    | none =>
      if c = lbrace then
        match rest with
        | [] => .error unmatchedLBraceErr
        | c2 :: rest2 =>
          if c2 = lbrace then
            match formatAux args none rest2 with
            | .ok out => .ok (lbrace :: out)
            | .error e => .error e
          else if c2 = rbrace then
            match lookupArg "" args with
            | none => .error (keyErr "")
            | some v =>
              match formatAux args none rest2 with
              | .ok out => .ok (v.data ++ out)
              | .error e => .error e
          else formatAux args (some [c2]) rest2
      else if c = rbrace then
        match rest with
        | [] => .error unmatchedRBraceErr
        | c2 :: rest2 =>
          if c2 = rbrace then
            match formatAux args none rest2 with
            | .ok out => .ok (rbrace :: out)
            | .error e => .error e
          else .error unmatchedRBraceErr
      else
        match formatAux args none rest with
        | .ok out => .ok (c :: out)
        | .error e => .error e

/-- `template.format(**args)` for string templates with named replacement
fields. -/
def pyFormat (template : String) (args : List (String × String)) :
    Except PyError String :=
  match formatAux args none template.data with
  | .ok out => .ok (String.mk out)
  | .error e => .error e

/-- Line 61-64 of `operators/base_data_quality_operator.py`:
`if check_args: self.dq_check_args = check_args else: self.dq_check_args = \x7b\x7d`.
Python truthiness sends both `None` and the empty dict to the empty
mapping. -/
def dqArgsOf : Option (List (String × String)) → List (String × String)
  | some l => if l.isEmpty then [] else l
  | none => []

/-- The state a successfully constructed `BaseDataQualityOperator`
(operators-file version) carries after `__init__`. -/
structure OperatorState where
  conn_id : String
  push_conn_id : Option String
  sql : String
  use_legacy_sql : Bool
  message_writer : Bool
  dq_check_args : List (String × String)
  check_description : Option String
  task_id : String
deriving DecidableEq, Repr

/-- `BaseDataQualityOperator.__init__` of
`operators/base_data_quality_operator.py` (lines 41-72): stores the plain
fields, defaults `dq_check_args`, formats `check_description` through the
mapping when it is truthy (left untouched when `None` or empty), and
formats `task_id` through the mapping.  A `KeyError`/`ValueError` escaping
`str.format` makes construction fail. -/
def operatorInit (task_id sql conn_id : String) (push_conn_id : Option String)
    (check_description : Option String) (use_legacy_sql : Bool)
    (message_writer : Bool) (check_args : Option (List (String × String))) :
    Except PyError OperatorState :=
  let dq_check_args := dqArgsOf check_args
  match (match check_description with
         | some d =>
           if d.isEmpty then Except.ok (some d)
           else (pyFormat d dq_check_args).map some
         | none => Except.ok none) with
  | .error e => .error e
  | .ok desc =>
    match pyFormat task_id dq_check_args with
    | .error e => .error e
    | .ok tid =>
      .ok { conn_id := conn_id, push_conn_id := push_conn_id, sql := sql,
            use_legacy_sql := use_legacy_sql, message_writer := message_writer,
            dq_check_args := dq_check_args, check_description := desc,
            task_id := tid }

/-- The `NotImplementedError` raised by the abstract
`BaseDataQualityOperator.execute` (lines 74-76 of the operators file). -/
def notImplementedErr : PyError := ⟨"NotImplementedError", ""⟩

/-- `BaseDataQualityOperator.execute` of the operators file: the base class
raises `NotImplementedError`; in particular no run re-substitutes the
templates stored in the state. -/
def operatorExecute (_s : OperatorState) : Except PyError (List (String × FieldValue)) :=
  .error notImplementedErr

/-- Floor of a rational, computed from its reduced fraction with
floor-division (the denominator is positive, so `Int.fdiv num den` is the
floor). -/
def ratFloor (q : ℚ) : ℤ := Int.fdiv q.num (q.den : ℤ)

/-- Round a rational to the nearest integer, ties to even — the rounding
of Python 3's built-in `round` (the source feeds it exact database
decimals; binary-float representation error is outside the model). -/
def roundHalfToEven (q : ℚ) : ℤ :=
  let f := ratFloor q
  let r : ℚ := q - (f : ℚ)
  if r < 1/2 then f
  else if 1/2 < r then f + 1
  else if f % 2 = 0 then f else f + 1

/-- `round(x, 2)` of the source: round to two decimal places. -/
def pyRound2 (q : ℚ) : ℚ := (roundHalfToEven (q * 100) : ℚ) / 100

/-- The fields `send_failure_notification` reads from its `info_dict`
argument: `description` and `execution_date` already rendered to strings
(the source interpolates `str(...)` of them), the measured `result` and
the two thresholds as numbers. -/
structure FailureInfo where
  description : String
  execution_date : String
  result : ℚ
  min_threshold : ℚ
  max_threshold : ℚ
deriving DecidableEq, Repr

/-- The segments of the `body` format-string of
`send_failure_notification` (lines 98-116 of the operators file), literal
text alternating with the interpolated values, in source order. -/
def failureBodySegments (task_id dag_id sql : String) (info : FailureInfo) :
    List String :=
  ["\n            Data Quality Check: \"", task_id,
   "\" failed.\n            DAG: ", dag_id,
   "\n            Task_id: ", task_id,
   "\n            Check description: ", info.description,
   "\n            Execution date: ", info.execution_date,
   "\n            SQL: ", sql,
   "\n            Result: ", toString (pyRound2 info.result),
   " is not within thresholds ", toString info.min_threshold,
   "\n                and ", toString info.max_threshold,
   "\n        "]

/-- `send_failure_notification` of the operators file (lines 93-117):
formats the body and raises `AirflowException(body)`; it never returns
normally. -/
def send_failure_notification (task_id dag_id sql : String)
    (info : FailureInfo) : Except PyError Unit :=
  .error ⟨"AirflowException", concatAll (failureBodySegments task_id dag_id sql info)⟩

theorem occursIn_of_mem {t : String} {l : List String} (h : t ∈ l) :
    occursIn t (concatAll l) := by
  induction l with
  | nil => cases h
  | cons s rest ih =>
    rcases List.mem_cons.mp h with rfl | h2
    · exact ⟨[], (concatAll rest).data, by simp [concatAll, String.data_append]⟩
    · obtain ⟨a, b, hb⟩ := ih h2
      exact ⟨s.data ++ a, b, by simp [concatAll, String.data_append, hb]⟩

theorem formatAux_nobrace (args : List (String × String)) :
    ∀ l : List Char, (∀ c ∈ l, c ≠ lbrace ∧ c ≠ rbrace) →
      formatAux args none l = .ok l := by
  intro l
  induction l with
  | nil => intro _; rfl
  | cons c rest ih =>
    intro h
    have hc := h c (List.mem_cons_self c rest)
    have hrest : ∀ x ∈ rest, x ≠ lbrace ∧ x ≠ rbrace :=
      fun x hx => h x (List.mem_cons_of_mem _ hx)
    rw [formatAux.eq_def]
    simp [hc.1, hc.2, ih hrest]

/-- C1: the check outcome `within_threshold` is true exactly when
`min_threshold ≤ measured ≤ max_threshold`; both boundary values pass, and
values strictly below the minimum or strictly above the maximum fail. -/
theorem threshold_eval_iff (m lo hi : ℚ) :
    (within_threshold m lo hi = true ↔ lo ≤ m ∧ m ≤ hi) ∧
    (lo ≤ hi → within_threshold lo lo hi = true ∧ within_threshold hi lo hi = true) ∧
    (m < lo → within_threshold m lo hi = false) ∧
    (hi < m → within_threshold m lo hi = false) := by
  refine ⟨by simp [within_threshold], fun h => ⟨by simp [within_threshold, h],
    by simp [within_threshold, h]⟩, fun h => ?_, fun h => ?_⟩
  · simp [within_threshold, not_le.mpr h]
  · simp [within_threshold, not_le.mpr h]

theorem threshold_eval_iff_witness :
    within_threshold 10 10 15 = true ∧ within_threshold 15 10 15 = true ∧
    within_threshold 9 10 15 = false ∧ within_threshold 16 10 15 = false :=
  ⟨((threshold_eval_iff 0 10 15).2.1 (by norm_num)).1,
   ((threshold_eval_iff 0 10 15).2.1 (by norm_num)).2,
   (threshold_eval_iff 9 10 15).2.2.1 (by norm_num),
   (threshold_eval_iff 16 10 15).2.2.2 (by norm_num)⟩

/-- C2: when the query's result set is exactly one row with exactly one
column, both versions of `get_sql_value` return that single cell's value
unchanged. -/
theorem scalar_roundtrip (conn_type conn_id sql : String) (hk : Hook) (v : ℚ)
    (use_legacy_sql : Bool) (get_records : Hook → String → List (List ℚ))
    (hres : get_hook conn_type conn_id = .ok hk)
    (hrow : get_records hk sql = [[v]])
    (hrow2 : get_records (operator_get_hook conn_type conn_id use_legacy_sql) sql = [[v]]) :
    get_sql_value conn_type conn_id sql get_records = .ok v ∧
    operator_get_sql_value conn_type conn_id sql use_legacy_sql get_records = .ok v := by
  constructor
  · simp [get_sql_value, hres, hrow]
  · simp [operator_get_sql_value, hrow2]

theorem scalar_roundtrip_witness :
    get_sql_value "postgres" "c" "q" (fun _ _ => [[7]]) = .ok 7 ∧
    operator_get_sql_value "postgres" "c" "q" false (fun _ _ => [[7]]) = .ok 7 :=
  scalar_roundtrip "postgres" "c" "q" (.postgres "c") 7 false
    (fun _ _ => [[7]]) rfl rfl rfl

/-- C3 counterexample: the three cardinality violations do not raise
distinct error kinds — on concrete empty, two-row and two-column results
the raised exceptions all have the same kind, `ValueError`. -/
theorem scalar_error_kinds_equal :
    ∃ e1 e2 e3 : PyError,
      get_sql_value "postgres" "c" "q" (fun _ _ => []) = .error e1 ∧
      get_sql_value "postgres" "c" "q" (fun _ _ => [[1], [2]]) = .error e2 ∧
      get_sql_value "postgres" "c" "q" (fun _ _ => [[1, 2]]) = .error e3 ∧
      e1.kind = e2.kind ∧ e2.kind = e3.kind :=
  ⟨noResultErr, ambiguousResultErr, wrongShapeErr, rfl, rfl, rfl, rfl, rfl⟩

/-- C3 (amended): each of the three cardinality violations raises an error
of the same kind `ValueError`, and the three error messages are pairwise
distinct, so a caller can assert on which violation occurred by message,
not by exception class. -/
theorem scalar_cardinality_errors (conn_type conn_id sql : String) (hk : Hook)
    (get_records : Hook → String → List (List ℚ))
    (hres : get_hook conn_type conn_id = .ok hk) :
    (get_records hk sql = [] →
       get_sql_value conn_type conn_id sql get_records = .error noResultErr) ∧
    (1 < (get_records hk sql).length →
       get_sql_value conn_type conn_id sql get_records = .error ambiguousResultErr) ∧
    (∀ row, get_records hk sql = [row] → row.length ≠ 1 →
       get_sql_value conn_type conn_id sql get_records = .error wrongShapeErr) ∧
    noResultErr.kind = "ValueError" ∧ ambiguousResultErr.kind = "ValueError" ∧
    wrongShapeErr.kind = "ValueError" ∧
    noResultErr.msg ≠ ambiguousResultErr.msg ∧
    noResultErr.msg ≠ wrongShapeErr.msg ∧
    ambiguousResultErr.msg ≠ wrongShapeErr.msg := by
  refine ⟨fun h => ?_, fun h => ?_, fun row hr hlen => ?_,
    rfl, rfl, rfl, by decide, by decide, by decide⟩
  · simp [get_sql_value, hres, h]
  · simp [get_sql_value, hres, h]
  · simp [get_sql_value, hres, hr, hlen]

theorem scalar_cardinality_errors_witness :
    get_sql_value "postgres" "c" "q" (fun _ _ => []) = .error noResultErr ∧
    get_sql_value "postgres" "c" "q" (fun _ _ => [[1], [2]]) = .error ambiguousResultErr ∧
    get_sql_value "postgres" "c" "q" (fun _ _ => [[1, 2]]) = .error wrongShapeErr :=
  ⟨(scalar_cardinality_errors "postgres" "c" "q" (.postgres "c")
      (fun _ _ => []) rfl).1 rfl,
   (scalar_cardinality_errors "postgres" "c" "q" (.postgres "c")
      (fun _ _ => [[1], [2]]) rfl).2.1 (by norm_num),
   (scalar_cardinality_errors "postgres" "c" "q" (.postgres "c")
      (fun _ _ => [[1, 2]]) rfl).2.2.1 [1, 2] rfl (by norm_num)⟩

/-- C4: for a connection whose backend kind is not `postgres`, `mysql` or
`hive`, hook resolution raises a `ValueError` whose message names the
offending kind, and `get_sql_value` propagates that error whatever the
query would have returned — the error precedes any query execution. -/
theorem unsupported_backend (conn_type conn_id sql : String)
    (get_records : Hook → String → List (List ℚ))
    (h1 : conn_type ≠ "postgres") (h2 : conn_type ≠ "mysql")
    (h3 : conn_type ≠ "hive") :
    ∃ e : PyError, get_hook conn_type conn_id = .error e ∧
      e.kind = "ValueError" ∧ occursIn conn_type e.msg ∧
      get_sql_value conn_type conn_id sql get_records = .error e := by
  refine ⟨⟨"ValueError",
    concatAll ["Connection type of \"", conn_type, "\" not currently supported"]⟩,
    ?_, rfl, occursIn_of_mem (by simp), ?_⟩
  · simp [get_hook, h1, h2, h3]
  · simp [get_sql_value, get_hook, h1, h2, h3]

theorem unsupported_backend_witness :
    ∃ e : PyError, get_hook "sqlite" "c" = .error e ∧
      e.kind = "ValueError" ∧ occursIn "sqlite" e.msg ∧
      get_sql_value "sqlite" "c" "q" (fun _ _ => [[1]]) = .error e :=
  unsupported_backend "sqlite" "c" "q" (fun _ _ => [[1]])
    (by decide) (by decide) (by decide)

/-- C5: every record assembled by the result builder has exactly seven
named fields, in the fixed insertion order
identifier, description, execution_timestamp, measured_value,
min_threshold, max_threshold, within_threshold — for every outcome,
passing or failing. -/
theorem check_result_shape (identifier description execution_timestamp : String)
    (measured lo hi : ℚ) :
    (build_check_result identifier description execution_timestamp measured lo hi).length = 7 ∧
    (build_check_result identifier description execution_timestamp measured lo hi).map Prod.fst =
      ["identifier", "description", "execution_timestamp", "measured_value",
       "min_threshold", "max_threshold", "within_threshold"] :=
  ⟨rfl, rfl⟩

/-- C6: `send_failure_notification` always raises an `AirflowException`
(never returns normally) whose message contains the check identifier
(`task_id`), the description, the measured value rounded to two decimal
places, both thresholds, the SQL text and the execution timestamp. -/
theorem failure_notification_raises (task_id dag_id sql : String)
    (info : FailureInfo) :
    ∃ e : PyError,
      send_failure_notification task_id dag_id sql info = .error e ∧
      send_failure_notification task_id dag_id sql info ≠ .ok () ∧
      e.kind = "AirflowException" ∧
      occursIn task_id e.msg ∧
      occursIn info.description e.msg ∧
      occursIn (toString (pyRound2 info.result)) e.msg ∧
      occursIn (toString info.min_threshold) e.msg ∧
      occursIn (toString info.max_threshold) e.msg ∧
      occursIn sql e.msg ∧
      occursIn info.execution_date e.msg := by
  refine ⟨⟨"AirflowException", concatAll (failureBodySegments task_id dag_id sql info)⟩,
    rfl, by simp [send_failure_notification], rfl, ?_, ?_, ?_, ?_, ?_, ?_, ?_⟩ <;>
    exact occursIn_of_mem (by simp [failureBodySegments])

/-- C7 counterexample: for a concrete passing record (measured 12 inside
[10, 15], `within_threshold` true), `push` with a configured message
writer does invoke the external store sink. -/
theorem push_sink_on_success :
    (build_check_result "t" "d" "ts" 12 10 15).lookup "within_threshold" =
      some (.boolean true) ∧
    (push "dag" true (build_check_result "t" "d" "ts" 12 10 15)).writer_messages ≠ [] := by
  constructor
  · decide
  · simp [push, build_check_result]

/-- C7 (amended): for a passing result, `push` invokes no sink only when no
message writer is configured; a configured message writer receives the
record regardless of the passing outcome. -/
theorem push_success_effects (dag_id identifier description execution_timestamp : String)
    (measured lo hi : ℚ) (_h : within_threshold measured lo hi = true) :
    (push dag_id false
      (build_check_result identifier description execution_timestamp measured lo hi)).writer_messages = [] ∧
    (push dag_id true
      (build_check_result identifier description execution_timestamp measured lo hi)).writer_messages =
      [build_check_result identifier description execution_timestamp measured lo hi] :=
  ⟨rfl, rfl⟩

theorem push_success_effects_witness :
    (push "dag" false (build_check_result "t" "d" "ts" 12 10 15)).writer_messages = [] ∧
    (push "dag" true (build_check_result "t" "d" "ts" 12 10 15)).writer_messages =
      [build_check_result "t" "d" "ts" 12 10 15] :=
  push_success_effects "dag" "t" "d" "ts" 12 10 15 (by decide)

/-- C8: hook dispatch maps `postgres` to a Postgres handle, `mysql` to a
MySQL handle, `hive` to a HiveServer2 handle, and `google_cloud_platform`
to a BigQuery handle carrying the `use_legacy_sql` flag. -/
theorem hook_dispatch (conn_id : String) (use_legacy_sql : Bool) :
    get_hook "postgres" conn_id = .ok (.postgres conn_id) ∧
    get_hook "mysql" conn_id = .ok (.mysql conn_id) ∧
    get_hook "hive" conn_id = .ok (.hiveServer2 conn_id) ∧
    operator_get_hook "google_cloud_platform" conn_id use_legacy_sql =
      .bigquery conn_id use_legacy_sql :=
  ⟨rfl, rfl, rfl, rfl⟩

/-- C9: construction applies named-parameter substitution exactly once to
the identifier and description templates using the configured mapping: the
stored `task_id` and `check_description` are the single-pass `str.format`
outputs (any placeholder text a substituted value introduces is stored
verbatim, not substituted again), and the base `execute` performs no
re-substitution — it raises `NotImplementedError`. -/
theorem init_formats_once (task_id sql conn_id : String)
    (push_conn_id : Option String) (check_description : Option String)
    (use_legacy_sql message_writer : Bool)
    (check_args : Option (List (String × String))) (s : OperatorState)
    (h : operatorInit task_id sql conn_id push_conn_id check_description
          use_legacy_sql message_writer check_args = .ok s) :
    pyFormat task_id (dqArgsOf check_args) = .ok s.task_id ∧
    s.dq_check_args = dqArgsOf check_args ∧
    (∀ d, check_description = some d → ¬d.isEmpty →
      ∃ x, pyFormat d (dqArgsOf check_args) = .ok x ∧ s.check_description = some x) ∧
    operatorExecute s = .error notImplementedErr := by
  simp only [operatorInit] at h
  split at h
  · cases h
  · rename_i desc heq
    split at h
    · cases h
    · rename_i tid ht
      cases h
      refine ⟨ht, rfl, ?_, rfl⟩
      intro d hdd hne
      subst hdd
      simp only [if_neg hne] at heq
      rcases hx : pyFormat d (dqArgsOf check_args) with e | x
      · rw [hx] at heq; cases heq
      · rw [hx] at heq
        cases heq
        exact ⟨x, rfl, rfl⟩

theorem init_formats_once_witness :
    pyFormat "check_\x7ba\x7d" (dqArgsOf (some [("a", "v_\x7bb\x7d")])) =
      .ok "check_v_\x7bb\x7d" :=
  (init_formats_once "check_\x7ba\x7d" "q" "c" none none false false
    (some [("a", "v_\x7bb\x7d")])
    { conn_id := "c", push_conn_id := none, sql := "q", use_legacy_sql := false,
      message_writer := false, dq_check_args := [("a", "v_\x7bb\x7d")],
      check_description := none, task_id := "check_v_\x7bb\x7d" } rfl).1

/-- C10: with `check_args` omitted the substitution mapping defaults to the
empty mapping, with `check_description` omitted it stays `None` and no
substitution is attempted and no error is raised, and an identifier
template containing no braces is stored unchanged. -/
theorem init_defaults (task_id sql conn_id : String)
    (push_conn_id : Option String) (use_legacy_sql message_writer : Bool)
    (h : ∀ c ∈ task_id.data, c ≠ lbrace ∧ c ≠ rbrace) :
    operatorInit task_id sql conn_id push_conn_id none use_legacy_sql
        message_writer none =
      .ok { conn_id := conn_id, push_conn_id := push_conn_id, sql := sql,
            use_legacy_sql := use_legacy_sql, message_writer := message_writer,
            dq_check_args := [], check_description := none, task_id := task_id } := by
  have hf : formatAux [] none task_id.data = .ok task_id.data :=
    formatAux_nobrace [] task_id.data h
  simp [operatorInit, dqArgsOf, pyFormat, hf]

theorem init_defaults_witness :
    operatorInit "test" "SELECT 1" "conn" none none false false none =
      .ok { conn_id := "conn", push_conn_id := none, sql := "SELECT 1",
            use_legacy_sql := false, message_writer := false,
            dq_check_args := [], check_description := none, task_id := "test" } :=
  init_defaults "test" "SELECT 1" "conn" none false false (by decide)
